import Mathlib

/-!
Verification of the ExamCountdown application core: the remaining-time
calculator, the prompt-selection policy, the LLM retry/backoff loop, the
countdown controller's tick loop, persistence load, and the input handler.

The definitions below are a shallow embedding of the JavaScript source
(`ExamCountdown.jsx`, `getLlmPrompts.js`, and the inline
`calculateTimeLeft`).  React state setters are modelled as immediate
updates to an explicit state record; network and persistence calls are
modelled through outcome oracles passed as parameters; timestamps are
milliseconds since epoch as integers.
-/

/-- The derived remaining-time value `{days, hours, minutes, seconds}`. -/
structure RemainingTime where
  days : Nat
  hours : Nat
  minutes : Nat
  seconds : Nat
deriving DecidableEq, Repr

/-- `calculateTimeLeft(target)` with the current time made explicit.
Computes `difference = target.getTime() - now`; if `difference <= 0`
returns all zeros, otherwise the floor-based decomposition with divisors
`1000*60*60*24`, `1000*60*60`, `1000*60`, `1000` exactly as the source
writes them (`Math.floor` on a non-negative quotient is natural division). -/
def calculateTimeLeft (targetTime now : Int) : RemainingTime :=
  let difference := targetTime - now
  if difference ≤ 0 then
    { days := 0, hours := 0, minutes := 0, seconds := 0 }
  else
    let d := difference.toNat
    { days := d / (1000 * 60 * 60 * 24)
      hours := d % (1000 * 60 * 60 * 24) / (1000 * 60 * 60)
      minutes := d % (1000 * 60 * 60) / (1000 * 60)
      seconds := d % (1000 * 60) / 1000 }

/-- C1: the claim "all four fields are simultaneously zero if and only if
the current time is at or past the deadline" fails on the code: with the
deadline 500 ms in the future (current time strictly before the deadline)
`calculateTimeLeft` already returns all-zero fields, because the
seconds field floors the sub-second remainder to zero. -/
theorem C1_counterexample :
    calculateTimeLeft 500 0 = { days := 0, hours := 0, minutes := 0, seconds := 0 } ∧
    ¬ ((500 : Int) ≤ 0) := by
  constructor
  · rfl
  · decide

/-- C1 (amended): the `RemainingTime` returned by `calculateTimeLeft` has
all four fields simultaneously zero if and only if strictly less than
1000 ms remain until the deadline (in particular whenever the current
time is at or past the deadline); for every deadline at or in the past it
returns the all-zero record, and the fields are naturals, never negative. -/
theorem C1_amended_all_zero_iff (targetTime now : Int) :
    (calculateTimeLeft targetTime now =
        { days := 0, hours := 0, minutes := 0, seconds := 0 } ↔
      targetTime - now < 1000) ∧
    (targetTime ≤ now →
      calculateTimeLeft targetTime now =
        { days := 0, hours := 0, minutes := 0, seconds := 0 }) := by
  by_cases hd : targetTime - now ≤ 0
  · simp only [calculateTimeLeft, if_pos hd]
    refine ⟨⟨fun _ => by omega, fun _ => trivial⟩, fun _ => trivial⟩
  · simp only [calculateTimeLeft, if_neg hd, RemainingTime.mk.injEq]
    constructor
    · omega
    · intro h
      omega

/-- C9: for every deadline strictly in the future the result of
`calculateTimeLeft` is the strict floor-based decomposition of the
millisecond difference: days is the flooring quotient by 86 400 000 and
each smaller field takes the remainder after extracting every larger
unit, with `hours < 24`, `minutes < 60`, `seconds < 60` (all fields are
naturals, hence non-negative). -/
theorem C9_future_decomposition (targetTime now : Int) (h : now < targetTime) :
    (calculateTimeLeft targetTime now).days =
      (targetTime - now).toNat / 86400000 ∧
    (calculateTimeLeft targetTime now).hours =
      (targetTime - now).toNat % 86400000 / 3600000 ∧
    (calculateTimeLeft targetTime now).minutes =
      (targetTime - now).toNat % 86400000 % 3600000 / 60000 ∧
    (calculateTimeLeft targetTime now).seconds =
      (targetTime - now).toNat % 86400000 % 3600000 % 60000 / 1000 ∧
    (calculateTimeLeft targetTime now).hours < 24 ∧
    (calculateTimeLeft targetTime now).minutes < 60 ∧
    (calculateTimeLeft targetTime now).seconds < 60 := by
  have hd : ¬ targetTime - now ≤ 0 := by omega
  simp only [calculateTimeLeft, if_neg hd]
  refine ⟨?_, ?_, ?_, ?_, ?_, ?_, ?_⟩ <;> first | trivial | omega

/-- C9 witness: the decomposition and bounds evaluated at the concrete
deadline 90 061 001 ms with current time 0 (1 day, 1 hour, 1 minute,
1 second and 1 ms remaining). -/
theorem C9_future_decomposition_witness :
    (calculateTimeLeft 90061001 0).days =
      ((90061001 : Int) - 0).toNat / 86400000 ∧
    (calculateTimeLeft 90061001 0).hours =
      ((90061001 : Int) - 0).toNat % 86400000 / 3600000 ∧
    (calculateTimeLeft 90061001 0).minutes =
      ((90061001 : Int) - 0).toNat % 86400000 % 3600000 / 60000 ∧
    (calculateTimeLeft 90061001 0).seconds =
      ((90061001 : Int) - 0).toNat % 86400000 % 3600000 % 60000 / 1000 ∧
    (calculateTimeLeft 90061001 0).hours < 24 ∧
    (calculateTimeLeft 90061001 0).minutes < 60 ∧
    (calculateTimeLeft 90061001 0).seconds < 60 :=
  C9_future_decomposition 90061001 0 (by decide)

/-- `getLlmPrompts(daysRemaining, isExamToday)` from
`src/services/getLlmPrompts.js`: returns the motivation-prompt /
study-tip-prompt pair selected by the if-chain, with the template
interpolation of `daysRemaining` rendered by `toString`. -/
def getLlmPrompts (daysRemaining : Nat) (isExamToday : Bool) : String × String :=
  if isExamToday then
    ( "🎉 Congratulations! Your exam day has arrived. You've prepared well - now go show what you know!",
      "Take a deep breath and trust your knowledge and Trust in God. You've got this!")
  else if daysRemaining = 1 then
    ( "Provide a calming, final motivational message (1-2 sentences) for someone whose exam is tomorrow. Emphasize self-care and trust in their preparation.",
      "Provide a crucial last-minute study tip (1-2 sentences) for someone whose exam is tomorrow, focusing on what NOT to do or a simple quick review method.")
  else if daysRemaining > 50 then
    ( s!"Provide a motivating message (1-2 sentences) for someone with {daysRemaining} days until their exam, focusing on consistent, long-term preparation and avoiding burnout.",
      s!"Provide a study tip (1-2 sentences) for someone with {daysRemaining} days until their exam, focusing on setting clear, achievable milestones and starting early.")
  else if daysRemaining > 30 then
    ( s!"Provide a concise, encouraging motivational message (1-2 sentences) for someone with {daysRemaining} days until a major exam, emphasizing consistent effort and building a solid foundation.",
      s!"Provide a practical study tip (1-2 sentences) for someone with {daysRemaining} days until a major exam, focusing on effective planning, resource utilization, and regular review.")
  else if daysRemaining > 7 then
    ( s!"Provide a concise, focused motivational message (1-2 sentences) for someone with {daysRemaining} days until their exam, emphasizing perseverance in the mid-stage and tackling weak areas.",
      s!"Provide a practical study tip (1-2 sentences) for someone with {daysRemaining} days until their exam, focusing on active learning, practice questions, and understanding concepts.")
  else if daysRemaining > 0 then
    ( s!"Provide a short, intense motivational message (1-2 sentences) for someone in the final stretch, with {daysRemaining} days until their exam. Boost their confidence for the last push.",
      s!"Provide a practical study tip (1-2 sentences) for someone with {daysRemaining} days until their exam, focusing on effective review strategies, mock exams, and managing stress.")
  else
    ( "Enter days to start your exam countdown and get personalized motivation!",
      "Enter days to start your exam countdown and get personalized study tips!")

/-- The seven exclusive buckets of the content-request policy, one per
branch of `getLlmPrompts`. -/
inductive PromptBucket where
  | examToday
  | finalDay
  | longHorizon
  | midHorizon
  | shortHorizon
  | finalStretch
  | notStarted
deriving DecidableEq, Repr

/-- Which branch of `getLlmPrompts` fires: the same guard chain in the
same order as the source. -/
def selectBucket (daysRemaining : Nat) (isExamToday : Bool) : PromptBucket :=
  if isExamToday then .examToday
  else if daysRemaining = 1 then .finalDay
  else if daysRemaining > 50 then .longHorizon
  else if daysRemaining > 30 then .midHorizon
  else if daysRemaining > 7 then .shortHorizon
  else if daysRemaining > 0 then .finalStretch
  else .notStarted

/-- The prompt pair each bucket of `getLlmPrompts` produces. -/
def bucketPrompts (b : PromptBucket) (daysRemaining : Nat) : String × String :=
  match b with
  | .examToday =>
    ( "🎉 Congratulations! Your exam day has arrived. You've prepared well - now go show what you know!",
      "Take a deep breath and trust your knowledge and Trust in God. You've got this!")
  | .finalDay =>
    ( "Provide a calming, final motivational message (1-2 sentences) for someone whose exam is tomorrow. Emphasize self-care and trust in their preparation.",
      "Provide a crucial last-minute study tip (1-2 sentences) for someone whose exam is tomorrow, focusing on what NOT to do or a simple quick review method.")
  | .longHorizon =>
    ( s!"Provide a motivating message (1-2 sentences) for someone with {daysRemaining} days until their exam, focusing on consistent, long-term preparation and avoiding burnout.",
      s!"Provide a study tip (1-2 sentences) for someone with {daysRemaining} days until their exam, focusing on setting clear, achievable milestones and starting early.")
  | .midHorizon =>
    ( s!"Provide a concise, encouraging motivational message (1-2 sentences) for someone with {daysRemaining} days until a major exam, emphasizing consistent effort and building a solid foundation.",
      s!"Provide a practical study tip (1-2 sentences) for someone with {daysRemaining} days until a major exam, focusing on effective planning, resource utilization, and regular review.")
  | .shortHorizon =>
    ( s!"Provide a concise, focused motivational message (1-2 sentences) for someone with {daysRemaining} days until their exam, emphasizing perseverance in the mid-stage and tackling weak areas.",
      s!"Provide a practical study tip (1-2 sentences) for someone with {daysRemaining} days until their exam, focusing on active learning, practice questions, and understanding concepts.")
  | .finalStretch =>
    ( s!"Provide a short, intense motivational message (1-2 sentences) for someone in the final stretch, with {daysRemaining} days until their exam. Boost their confidence for the last push.",
      s!"Provide a practical study tip (1-2 sentences) for someone with {daysRemaining} days until their exam, focusing on effective review strategies, mock exams, and managing stress.")
  | .notStarted =>
    ( "Enter days to start your exam countdown and get personalized motivation!",
      "Enter days to start your exam countdown and get personalized study tips!")

/-- `getLlmPrompts` factors through the bucket selector: the pair it
returns is exactly the pair of the bucket `selectBucket` picks. -/
theorem getLlmPrompts_eq_bucket (daysRemaining : Nat) (isExamToday : Bool) :
    getLlmPrompts daysRemaining isExamToday =
      bucketPrompts (selectBucket daysRemaining isExamToday) daysRemaining := by
  cases isExamToday <;>
    simp only [getLlmPrompts, selectBucket] <;>
    split_ifs <;> rfl

/-- C3: `getLlmPrompts` selects exactly one bucket with the precedence
isToday, then `d = 1`, then `d > 50`, then `30 < d ≤ 50`, then
`7 < d ≤ 30`, then `0 < d ≤ 7`, else the not-yet-started placeholder;
`isToday = true` always yields the fixed celebratory pair whatever
`daysRemaining` is, and each boundary pair 50/51, 30/31, 7/8, 1/2
selects two different buckets. -/
theorem C3_bucket_selection :
    (∀ d : Nat, ∀ t : Bool,
      getLlmPrompts d t = bucketPrompts (selectBucket d t) d) ∧
    (∀ d : Nat, selectBucket d true = .examToday ∧
      getLlmPrompts d true =
        ( "🎉 Congratulations! Your exam day has arrived. You've prepared well - now go show what you know!",
          "Take a deep breath and trust your knowledge and Trust in God. You've got this!")) ∧
    (∀ d : Nat, selectBucket d false =
      if d = 1 then .finalDay
      else if d > 50 then .longHorizon
      else if 30 < d ∧ d ≤ 50 then .midHorizon
      else if 7 < d ∧ d ≤ 30 then .shortHorizon
      else if 0 < d ∧ d ≤ 7 then .finalStretch
      else .notStarted) ∧
    (selectBucket 50 false ≠ selectBucket 51 false) ∧
    (selectBucket 30 false ≠ selectBucket 31 false) ∧
    (selectBucket 7 false ≠ selectBucket 8 false) ∧
    (selectBucket 1 false ≠ selectBucket 2 false) := by
  refine ⟨getLlmPrompts_eq_bucket, ?_, ?_, by decide, by decide, by decide, by decide⟩
  · intro d
    exact ⟨rfl, rfl⟩
  · intro d
    have h : selectBucket d false =
        (if d = 1 then .finalDay
        else if d > 50 then .longHorizon
        else if d > 30 then .midHorizon
        else if d > 7 then .shortHorizon
        else if d > 0 then .finalStretch
        else .notStarted) := rfl
    rw [h]
    split_ifs <;> first | rfl | omega

/-- The outcome the environment hands one iteration of the retry loop of
`generateLlmContent`: either `model.generateContent` answered and the
cleaned text parsed as JSON (`ok`, with the `motivation` and `studyTip`
fields, a missing field modelled as the empty string — both are falsy for
the `||` fallbacks), or an exception was thrown (`err`; `has429` says
whether `error.message` contains "429 (Too Many Requests)"; a JSON-parse
failure is an `err` whose message does not). -/
inductive AttemptOutcome where
  | ok (motivation studyTip : String)
  | err (has429 : Bool)
deriving DecidableEq, Repr

/-- The React state and refs of `ExamCountdown`, as one record.  State
setters are modelled as immediate field updates.  `appState` keeps the
source's string values "loading" / "initial" / "active" / "finished" /
"error"; `user` is the Firebase uid when signed in; `lastGeneratedDay`
and `isGenerating` are the two refs. -/
structure ComponentState where
  examDays : String
  targetDate : Option Int
  timeLeft : RemainingTime
  currentMotivation : String
  currentStudyTip : String
  isLoadingMessage : Bool
  appState : String
  inputError : String
  countdownTitle : String
  showResetModal : Bool
  user : Option String
  lastGeneratedDay : Option Nat
  isGenerating : Bool
deriving DecidableEq, Repr

/-- A run of `generateLlmContent` summarised: the state after the call,
how many `generateContent` network requests were issued, and the backoff
delays (ms, in order) awaited between rate-limited attempts. -/
structure GenEffect where
  state : ComponentState
  requests : Nat
  delays : List Nat
deriving DecidableEq, Repr

/-- `const MAX_RETRIES = 5`. -/
def MAX_RETRIES : Nat := 5

/-- `const INITIAL_BACKOFF_DELAY_MS = 1000`. -/
def INITIAL_BACKOFF_DELAY_MS : Nat := 1000

/-- The body of `for (let attempt = 0; attempt <= MAX_RETRIES; attempt++)`
in `generateLlmContent`.  On a successful, parsed response it applies the
`||` fallbacks, records the day in `lastGeneratedDayRef`, clears the
loading flag and breaks; on an exception whose message contains the 429
marker with `attempt < MAX_RETRIES` it waits
`INITIAL_BACKOFF_DELAY_MS * 2 ^ attempt` and continues; on any other
exception (or a 429 with retries exhausted) it sets the terminal fallback
message pair, clears the loading flag and breaks. -/
def runRetryLoop (outcomes : Nat → AttemptOutcome) (daysRemaining : Nat)
    (attempt : Nat) (s : ComponentState) : GenEffect :=
  if attempt ≤ MAX_RETRIES then
    match outcomes attempt with
    | .ok m t =>
        { state := { s with
            currentMotivation := if m = "" then "No motivation found." else m
            currentStudyTip := if t = "" then "No study tip found." else t
            lastGeneratedDay := some daysRemaining
            isLoadingMessage := false }
          requests := 1, delays := [] }
    | .err has429 =>
        if has429 = true ∧ attempt < MAX_RETRIES then
          let rest := runRetryLoop outcomes daysRemaining (attempt + 1) s
          { state := rest.state
            requests := rest.requests + 1
            delays := INITIAL_BACKOFF_DELAY_MS * 2 ^ attempt :: rest.delays }
        else
          { state := { s with
              currentMotivation := "Failed to load motivation. Please try again later."
              currentStudyTip := "Failed to load tips. Please try again later."
              isLoadingMessage := false }
            requests := 1, delays := [] }
  else
    { state := s, requests := 0, delays := [] }
termination_by MAX_RETRIES + 1 - attempt

/-- `generateLlmContent(daysRemaining, isExamToday)` from
`ExamCountdown.jsx`: returns unchanged unless `appState === "active"` and
no generation is in flight; the `isExamToday` branch applies the fixed
pair from `getLlmPrompts` without any network call; an unchanged day
(and not exam day) is a no-op; otherwise it raises the in-flight flag,
shows the "Generating personalized ..." placeholders, runs the retry
loop, and always clears the in-flight flag afterwards. -/
def generateLlmContent (s : ComponentState) (daysRemaining : Nat)
    (isExamToday : Bool) (outcomes : Nat → AttemptOutcome) : GenEffect :=
  if s.appState ≠ "active" ∨ s.isGenerating = true then
    { state := s, requests := 0, delays := [] }
  else if isExamToday then
    let p := getLlmPrompts daysRemaining isExamToday
    { state := { s with
        currentMotivation := p.1
        currentStudyTip := p.2
        isLoadingMessage := false
        lastGeneratedDay := some daysRemaining }
      requests := 0, delays := [] }
  else if s.lastGeneratedDay = some daysRemaining ∧ isExamToday = false then
    { state := s, requests := 0, delays := [] }
  else
    let s1 := { s with
      isGenerating := true
      isLoadingMessage := true
      currentMotivation := "Generating personalized motivation..."
      currentStudyTip := "Generating personalized study tip..." }
    let r := runRetryLoop outcomes daysRemaining 0 s1
    { state := { r.state with isGenerating := false }
      requests := r.requests, delays := r.delays }

/-- The fixed congratulatory motivation the controller shows when the
countdown reaches zero (tick loop and load path alike). -/
def finishedMotivation : String :=
  "🎉 Congratulations! Your exam day has arrived. You've prepared well - now go show what you know!"

/-- The fixed study tip shown when the countdown reaches zero. -/
def finishedStudyTip : String :=
  "Take a deep breath, trust your knowledge and trust in God. You've got this!"

/-- The repeated source expression
`newTimeLeft.days === 0 && (hours > 0 || minutes > 0 || seconds > 0)`:
the deadline's calendar day has arrived but time remains today. -/
def examDayInProgress (r : RemainingTime) : Bool :=
  decide (r.days = 0 ∧ (r.hours > 0 ∨ r.minutes > 0 ∨ r.seconds > 0))

/-- One tick of the controller summarised: the state after the interval
callback, the network requests and backoff delays of any generation it
triggered, and whether deletion of the persisted record was scheduled. -/
structure TickEffect where
  state : ComponentState
  requests : Nat
  delays : List Nat
  deleteScheduled : Bool
deriving DecidableEq, Repr

/-- One firing of the `setInterval` callback of the tick `useEffect` in
`ExamCountdown.jsx`.  The interval only exists while `targetDate` is set
and `appState === "active"`; the callback recomputes the remaining time,
transitions to "finished" (scheduling deletion when a uid is available)
when all four fields are zero, otherwise updates the title and triggers
`generateLlmContent` when the day differs from `lastGeneratedDayRef` or
the exam day is in progress. -/
def tick (s : ComponentState) (now : Int) (outcomes : Nat → AttemptOutcome) :
    TickEffect :=
  match s.targetDate with
  | none => { state := s, requests := 0, delays := [], deleteScheduled := false }
  | some target =>
    if s.appState = "active" then
      let newTimeLeft := calculateTimeLeft target now
      let s1 := { s with timeLeft := newTimeLeft }
      if newTimeLeft.days = 0 ∧ newTimeLeft.hours = 0 ∧
          newTimeLeft.minutes = 0 ∧ newTimeLeft.seconds = 0 then
        { state := { s1 with
            appState := "finished"
            currentMotivation := finishedMotivation
            currentStudyTip := finishedStudyTip
            isLoadingMessage := false }
          requests := 0, delays := []
          deleteScheduled := s.user.isSome }
      else
        let s2 := { s1 with
          countdownTitle :=
            if newTimeLeft.days > 0 then s!"{newTimeLeft.days} days to go! 💪"
            else "Less than a day left! ⏰" }
        let isExamDayInProgress := examDayInProgress newTimeLeft
        if some newTimeLeft.days ≠ s2.lastGeneratedDay ∨ isExamDayInProgress = true then
          let g := generateLlmContent s2 newTimeLeft.days isExamDayInProgress outcomes
          { state := g.state, requests := g.requests, delays := g.delays
            deleteScheduled := false }
        else
          { state := s2, requests := 0, delays := [], deleteScheduled := false }
    else
      { state := s, requests := 0, delays := [], deleteScheduled := false }

/-- What the Firestore `getDoc` of `loadTargetDate` produced: a record
with its stored `timestamp`, no record, or a thrown load error. -/
inductive LoadOutcome where
  | found (timestamp : Int)
  | notFound
  | failure
deriving DecidableEq, Repr

/-- `loadTargetDate(uid)` from `ExamCountdown.jsx`: returns unchanged
without a uid or when already "finished"; on a loaded future date enters
"active", derives the remaining time and triggers generation; on a past
date enters "finished" and schedules deletion; when no record exists
enters "initial" with the enter-days placeholders; when the load throws
it logs, sets `appState` to "initial" and clears both messages. -/
def loadTargetDate (s : ComponentState) (uid : Option String)
    (outcome : LoadOutcome) (now : Int) (outcomes : Nat → AttemptOutcome) :
    TickEffect :=
  match uid with
  | none => { state := s, requests := 0, delays := [], deleteScheduled := false }
  | some _ =>
    if s.appState = "finished" then
      { state := s, requests := 0, delays := [], deleteScheduled := false }
    else
      match outcome with
      | .found loadedTimestamp =>
        if loadedTimestamp > now then
          let remaining := calculateTimeLeft loadedTimestamp now
          let s1 := { s with
            targetDate := some loadedTimestamp
            appState := "active"
            countdownTitle := s!"{remaining.days} days to go! 💪"
            timeLeft := remaining }
          let g := generateLlmContent s1 remaining.days
            (examDayInProgress remaining) outcomes
          { state := g.state, requests := g.requests, delays := g.delays
            deleteScheduled := false }
        else
          { state := { s with
              appState := "finished"
              currentMotivation := finishedMotivation
              currentStudyTip := finishedStudyTip
              isLoadingMessage := false }
            requests := 0, delays := [], deleteScheduled := true }
      | .notFound =>
        { state := { s with
            appState := "initial"
            currentMotivation := "Enter days to start your exam countdown and get personalized motivation!"
            currentStudyTip := "Enter days to start your exam countdown and get personalized study tips!" }
          requests := 0, delays := [], deleteScheduled := false }
      | .failure =>
        { state := { s with
            appState := "initial"
            currentMotivation := ""
            currentStudyTip := "" }
          requests := 0, delays := [], deleteScheduled := false }

/-- JavaScript `Number.parseInt(str)` on decimal input: skip leading
whitespace, an optional sign, then the maximal run of decimal digits;
`none` models `NaN` (no digits).  The legacy `0x` hexadecimal prefix
branch is not modelled. -/
def jsParseInt (str : String) : Option Int :=
  let chars := str.toList.dropWhile (fun c => c.isWhitespace)
  let signAndRest : Bool × List Char :=
    match chars with
    | '-' :: cs => (true, cs)
    | '+' :: cs => (false, cs)
    | cs => (false, cs)
  let digits := signAndRest.2.takeWhile (fun c => c.isDigit)
  if digits.isEmpty then none
  else
    let n : Nat := digits.foldl (fun acc c => 10 * acc + (c.toNat - '0'.toNat)) 0
    some (if signAndRest.1 then -(n : Int) else (n : Int))

/-- A run of `handleStartCountdown` summarised: the state after the
handler, the timestamp passed to `saveTargetDate` when one was persisted,
and the requests/delays of the generation it triggered. -/
structure StartEffect where
  state : ComponentState
  saved : Option Int
  requests : Nat
  delays : List Nat
deriving DecidableEq, Repr

/-- `handleStartCountdown` from `ExamCountdown.jsx`.  `mkTarget` models
the calendar computation `new Date(); setDate(getDate() + days);
setHours(7, 0, 0, 0)` (local-time dependent, so passed as an oracle from
the parsed day count to the resulting timestamp).  Validation order as in
the source: `!examDays || isNaN(days) || days <= 0`, then `days > 365`,
then a missing uid; each rejection sets only the inline `inputError` and
returns. -/
def handleStartCountdown (s : ComponentState) (mkTarget : Int → Int)
    (now : Int) (outcomes : Nat → AttemptOutcome) : StartEffect :=
  match jsParseInt s.examDays with
  | none =>
    { state := { s with inputError := "Please enter a valid number of days (e.g., 75)." }
      saved := none, requests := 0, delays := [] }
  | some days =>
    if s.examDays = "" ∨ days ≤ 0 then
      { state := { s with inputError := "Please enter a valid number of days (e.g., 75)." }
        saved := none, requests := 0, delays := [] }
    else if days > 365 then
      { state := { s with inputError := "Please enter a number less than 365 days to ensure relevance." }
        saved := none, requests := 0, delays := [] }
    else if s.user = none then
      { state := { s with inputError := "Authentication not ready. Please wait a moment and try again." }
        saved := none, requests := 0, delays := [] }
    else
      let target := mkTarget days
      let initialTimeLeft := calculateTimeLeft target now
      let s1 := { s with
        inputError := ""
        targetDate := some target
        appState := "active"
        timeLeft := initialTimeLeft
        countdownTitle :=
          if initialTimeLeft.days > 0 then s!"{initialTimeLeft.days} days to go! 💪"
          else "Less than a day left! ⏰"
        lastGeneratedDay := none }
      let g := generateLlmContent s1 initialTimeLeft.days
        (examDayInProgress initialTimeLeft) outcomes
      { state := g.state, saved := some target
        requests := g.requests, delays := g.delays }

/-- Characterization of the retry loop from any start index `attempt ≤ 5`:
there is a retry count `k` such that the loop waited exactly the backoff
delays `1000 * 2 ^ attempt, …, 1000 * 2 ^ (attempt + k - 1)`, issued
`k + 1` requests, every retried attempt was a 429, and the final attempt
either succeeded (state updated with the parsed pair and the day
recorded) or was terminal (a non-429 error, or a 429 on attempt 5) with
the fallback message pair. -/
theorem runRetryLoop_spec (outcomes : Nat → AttemptOutcome) (daysRemaining : Nat)
    (s : ComponentState) :
    ∀ n attempt, 6 - attempt ≤ n → attempt ≤ 5 →
    ∃ k, attempt + k ≤ 5 ∧
      (runRetryLoop outcomes daysRemaining attempt s).delays =
        (List.range' attempt k).map (fun i => 1000 * 2 ^ i) ∧
      (runRetryLoop outcomes daysRemaining attempt s).requests = k + 1 ∧
      (∀ i, i < k → outcomes (attempt + i) = .err true) ∧
      ((∃ m t, outcomes (attempt + k) = .ok m t ∧
          (runRetryLoop outcomes daysRemaining attempt s).state =
            { s with
              currentMotivation := if m = "" then "No motivation found." else m
              currentStudyTip := if t = "" then "No study tip found." else t
              lastGeneratedDay := some daysRemaining
              isLoadingMessage := false }) ∨
       ((outcomes (attempt + k) = .err false ∨
           (outcomes (attempt + k) = .err true ∧ attempt + k = 5)) ∧
          (runRetryLoop outcomes daysRemaining attempt s).state =
            { s with
              currentMotivation := "Failed to load motivation. Please try again later."
              currentStudyTip := "Failed to load tips. Please try again later."
              isLoadingMessage := false })) := by
  intro n
  induction n with
  | zero => intro attempt h h5; omega
  | succ n ih =>
    intro attempt h h5
    rw [runRetryLoop]
    simp only [MAX_RETRIES, INITIAL_BACKOFF_DELAY_MS] at *
    rw [if_pos h5]
    cases houtcome : outcomes attempt with
    | ok m t =>
      refine ⟨0, by omega, by simp, by simp, by omega, .inl ⟨m, t, ?_, rfl⟩⟩
      simpa using houtcome
    | err b =>
      by_cases hb : b = true ∧ attempt < 5
      · obtain ⟨k, hk5, hdel, hreq, h429, hend⟩ := ih (attempt + 1) (by omega) (by omega)
        refine ⟨k + 1, by omega, ?_, ?_, ?_, ?_⟩
        · simp only [if_pos hb, List.range'_succ, List.map_cons]
          simp [hdel]
        · simp only [if_pos hb]
          simp [hreq]
        · intro i hi
          cases i with
          | zero => simpa [hb.1] using houtcome
          | succ j =>
            have hj := h429 j (by omega)
            have harith : attempt + 1 + j = attempt + (j + 1) := by omega
            rwa [harith] at hj
        · have harith : attempt + 1 + k = attempt + (k + 1) := by omega
          rw [harith] at hend
          simp only [if_pos hb]
          exact hend
      · refine ⟨0, by omega, ?_, ?_, by omega, ?_⟩
        · simp [if_neg hb]
        · simp [if_neg hb]
        · refine .inr ⟨?_, by simp [if_neg hb]⟩
          cases b with
          | false =>
            left
            simpa using houtcome
          | true =>
            right
            simp only [true_and] at hb
            exact ⟨by simpa using houtcome, by omega⟩

/-- A call of `generateLlmContent` that passes all three guards (active,
no generation in flight, a new day, not exam day) sets the in-flight flag
and placeholders, runs the retry loop from attempt 0, and clears the
flag afterwards. -/
theorem generateLlmContent_loop (s : ComponentState) (d : Nat)
    (outcomes : Nat → AttemptOutcome)
    (hActive : s.appState = "active") (hFree : s.isGenerating = false)
    (hNew : s.lastGeneratedDay ≠ some d) :
    generateLlmContent s d false outcomes =
      { state :=
          { (runRetryLoop outcomes d 0
              { s with
                isGenerating := true
                isLoadingMessage := true
                currentMotivation := "Generating personalized motivation..."
                currentStudyTip := "Generating personalized study tip..." }).state with
            isGenerating := false }
        requests :=
          (runRetryLoop outcomes d 0
            { s with
              isGenerating := true
              isLoadingMessage := true
              currentMotivation := "Generating personalized motivation..."
              currentStudyTip := "Generating personalized study tip..." }).requests
        delays :=
          (runRetryLoop outcomes d 0
            { s with
              isGenerating := true
              isLoadingMessage := true
              currentMotivation := "Generating personalized motivation..."
              currentStudyTip := "Generating personalized study tip..." }).delays } := by
  unfold generateLlmContent
  rw [if_neg (by simp [hActive, hFree])]
  rw [if_neg (by simp)]
  rw [if_neg (by simp [hNew])]

/-- C2: for every invocation of `generateLlmContent` that reaches the
request loop (active state, no generation in flight, a new day-bucket),
rate-limited failures are retried at most 5 additional times with delays
of exactly 1, 2, 4, 8 and 16 seconds in that order (every observed delay
follows a 429); six consecutive rate-limits exhaust the retries and end
with the terminal fallback message pair after the full delay sequence,
and a non-rate-limit error on any attempt ends the loop there with the
fallback pair and no further retries. -/
theorem C2_retry_backoff (s : ComponentState) (daysRemaining : Nat)
    (outcomes : Nat → AttemptOutcome)
    (hActive : s.appState = "active") (hFree : s.isGenerating = false)
    (hNew : s.lastGeneratedDay ≠ some daysRemaining) :
    ((generateLlmContent s daysRemaining false outcomes).delays <+:
        [1000, 2000, 4000, 8000, 16000]) ∧
    (∀ i, i < (generateLlmContent s daysRemaining false outcomes).delays.length →
      outcomes i = .err true) ∧
    ((∀ i, i ≤ 5 → outcomes i = .err true) →
      (generateLlmContent s daysRemaining false outcomes).delays =
          [1000, 2000, 4000, 8000, 16000] ∧
      (generateLlmContent s daysRemaining false outcomes).requests = 6 ∧
      (generateLlmContent s daysRemaining false outcomes).state.currentMotivation =
        "Failed to load motivation. Please try again later." ∧
      (generateLlmContent s daysRemaining false outcomes).state.currentStudyTip =
        "Failed to load tips. Please try again later.") ∧
    (∀ j, j ≤ 5 → (∀ i, i < j → outcomes i = .err true) →
      outcomes j = .err false →
      (generateLlmContent s daysRemaining false outcomes).delays =
          (List.range' 0 j).map (fun i => 1000 * 2 ^ i) ∧
      (generateLlmContent s daysRemaining false outcomes).requests = j + 1 ∧
      (generateLlmContent s daysRemaining false outcomes).state.currentMotivation =
        "Failed to load motivation. Please try again later." ∧
      (generateLlmContent s daysRemaining false outcomes).state.currentStudyTip =
        "Failed to load tips. Please try again later.") := by
  rw [generateLlmContent_loop s daysRemaining outcomes hActive hFree hNew]
  obtain ⟨k, hk5, hdel, hreq, h429, hend⟩ :=
    runRetryLoop_spec outcomes daysRemaining
      { s with
        isGenerating := true
        isLoadingMessage := true
        currentMotivation := "Generating personalized motivation..."
        currentStudyTip := "Generating personalized study tip..." }
      6 0 (by omega) (by omega)
  simp only [Nat.zero_add] at h429 hend
  have hfull : [1000, 2000, 4000, 8000, 16000] =
      (List.range' 0 5).map (fun i => 1000 * 2 ^ i) := by decide
  refine ⟨?_, ?_, ?_, ?_⟩
  · refine ⟨(List.range' k (5 - k)).map (fun i => 1000 * 2 ^ i), ?_⟩
    rw [hdel, ← List.map_append, hfull]
    have happ : List.range' 0 k ++ List.range' k (5 - k) = List.range' 0 5 := by
      have h := List.range'_append 0 k (5 - k) 1
      simp only [Nat.one_mul, Nat.zero_add] at h
      rw [h]
      congr 1
      omega
    rw [happ]
  · intro i hi
    rw [hdel, List.length_map, List.length_range'] at hi
    exact h429 i hi
  · intro hall
    have hk : k = 5 := by
      rcases hend with ⟨m, t, hok, _⟩ | ⟨hcase, _⟩
      · have := hall k (by omega)
        rw [hok] at this
        exact absurd this (by simp)
      · rcases hcase with hf | ⟨_, h5⟩
        · have := hall k (by omega)
          rw [hf] at this
          exact absurd this (by simp)
        · exact h5
    subst hk
    rcases hend with ⟨m, t, hok, _⟩ | ⟨_, hstate⟩
    · have := hall 5 (by omega)
      rw [hok] at this
      exact absurd this (by simp)
    · rw [hdel, hreq, hstate, hfull]
      exact ⟨rfl, rfl, rfl, rfl⟩
  · intro j hj5 hbelow hj
    have hk : k = j := by
      rcases Nat.lt_trichotomy k j with hlt | heq | hgt
      · rcases hend with ⟨m, t, hok, _⟩ | ⟨hcase, _⟩
        · have := hbelow k hlt
          rw [hok] at this
          exact absurd this (by simp)
        · rcases hcase with hf | ⟨_, h5⟩
          · have := hbelow k hlt
            rw [hf] at this
            exact absurd this (by simp)
          · omega
      · exact heq
      · have := h429 j hgt
        rw [hj] at this
        exact absurd this (by simp)
    subst hk
    rcases hend with ⟨m, t, hok, _⟩ | ⟨_, hstate⟩
    · rw [hok] at hj
      exact absurd hj (by simp)
    · rw [hdel, hreq, hstate]
      exact ⟨rfl, rfl, rfl, rfl⟩

/-- A concrete counting state used to instantiate the theorems: active,
deadline two days after epoch, nothing generated yet. -/
def sampleActiveState : ComponentState :=
  { examDays := "2"
    targetDate := some 172800000
    timeLeft := { days := 2, hours := 0, minutes := 0, seconds := 0 }
    currentMotivation := ""
    currentStudyTip := ""
    isLoadingMessage := false
    appState := "active"
    inputError := ""
    countdownTitle := "Exam Countdown"
    showResetModal := false
    user := some "user-1"
    lastGeneratedDay := none
    isGenerating := false }

/-- `sampleActiveState` still waiting for the initial load. -/
def sampleLoadingState : ComponentState :=
  { sampleActiveState with appState := "loading", targetDate := none }

/-- `sampleActiveState` with a generation currently in flight. -/
def sampleInFlightState : ComponentState :=
  { sampleActiveState with isGenerating := true }

/-- C2 witness: six consecutive 429 responses from the concrete active
state yield exactly the delays 1s, 2s, 4s, 8s, 16s and six requests. -/
theorem C2_retry_backoff_witness :
    (generateLlmContent sampleActiveState 2 false (fun _ => .err true)).delays =
      [1000, 2000, 4000, 8000, 16000] ∧
    (generateLlmContent sampleActiveState 2 false (fun _ => .err true)).requests = 6 := by
  have h := C2_retry_backoff sampleActiveState 2 (fun _ => .err true)
    rfl rfl (by decide)
  obtain ⟨hdel, hreq, _, _⟩ := h.2.2.1 (fun i _ => rfl)
  exact ⟨hdel, hreq⟩

/-- C10: calling `generateLlmContent` while the lifecycle state is
"loading", "initial", "finished" or "error" returns immediately: no
network request, no delay, and the state (content, loading flag, dedupe
refs included) is exactly unchanged. -/
theorem C10_inactive_noop (s : ComponentState) (d : Nat) (t : Bool)
    (outcomes : Nat → AttemptOutcome)
    (h : s.appState = "loading" ∨ s.appState = "initial" ∨
         s.appState = "finished" ∨ s.appState = "error") :
    generateLlmContent s d t outcomes =
      { state := s, requests := 0, delays := [] } := by
  have hne : s.appState ≠ "active" := by
    rcases h with h | h | h | h <;> rw [h] <;> decide
  unfold generateLlmContent
  rw [if_pos (Or.inl hne)]

/-- C10 witness: the no-op evaluated in the concrete "loading" state. -/
theorem C10_inactive_noop_witness :
    generateLlmContent sampleLoadingState 3 false (fun _ => .err false) =
      { state := sampleLoadingState, requests := 0, delays := [] } :=
  C10_inactive_noop sampleLoadingState 3 false (fun _ => .err false) (Or.inl rfl)

/-- C4: the claim "on load failure the controller transitions to the
Faulted (error) state with a user-visible message" fails on the code: at
the concrete loading state, a thrown load produces `appState = "initial"`
(the awaiting-input state), not "error", and both messages are cleared to
the empty string — no user-visible message. -/
theorem C4_counterexample :
    (loadTargetDate sampleLoadingState (some "user-1") .failure 0
        (fun _ => .err false)).state.appState = "initial" ∧
    (loadTargetDate sampleLoadingState (some "user-1") .failure 0
        (fun _ => .err false)).state.appState ≠ "error" ∧
    (loadTargetDate sampleLoadingState (some "user-1") .failure 0
        (fun _ => .err false)).state.currentMotivation = "" ∧
    (loadTargetDate sampleLoadingState (some "user-1") .failure 0
        (fun _ => .err false)).state.currentStudyTip = "" := by
  refine ⟨rfl, by decide, rfl, rfl⟩

/-- C4 (amended): whenever the initial load of the persisted deadline
fails (and the controller is not already "finished"), it transitions to
the "initial" (awaiting-input) state — not to the error state — with both
content messages cleared to the empty string, and performs no request and
schedules no deletion; no other state change occurs. -/
theorem C4_amended_load_failure (s : ComponentState) (uid : String) (now : Int)
    (outcomes : Nat → AttemptOutcome) (h : s.appState ≠ "finished") :
    loadTargetDate s (some uid) .failure now outcomes =
      { state := { s with
          appState := "initial"
          currentMotivation := ""
          currentStudyTip := "" }
        requests := 0, delays := [], deleteScheduled := false } := by
  simp only [loadTargetDate]
  rw [if_neg h]

/-- C4 witness: the amended behaviour evaluated at the concrete loading
state. -/
theorem C4_amended_load_failure_witness :
    loadTargetDate sampleLoadingState (some "user-1") .failure 0
        (fun _ => .err false) =
      { state := { sampleLoadingState with
          appState := "initial"
          currentMotivation := ""
          currentStudyTip := "" }
        requests := 0, delays := [], deleteScheduled := false } :=
  C4_amended_load_failure sampleLoadingState "user-1" 0 (fun _ => .err false)
    (by decide)

/-- Any call of `generateLlmContent` made while a generation is already
in flight is a complete no-op. -/
theorem generateLlmContent_inflight (s : ComponentState)
    (h : s.isGenerating = true) (d : Nat) (t : Bool)
    (outcomes : Nat → AttemptOutcome) :
    generateLlmContent s d t outcomes = { state := s, requests := 0, delays := [] } := by
  unfold generateLlmContent
  rw [if_pos (Or.inr h)]

/-- C5: while a prior generation is in flight (`isGeneratingRef` true),
any call to `generateLlmContent` performs no generation — no request, no
delay, every state field unchanged — while a tick still recomputes the
remaining time, still transitions to "finished" when it reaches all-zero,
and otherwise stays "active" with the content state untouched. -/
theorem C5_single_flight (s : ComponentState) (d : Nat) (t : Bool)
    (outcomes : Nat → AttemptOutcome) (h : s.isGenerating = true) :
    generateLlmContent s d t outcomes = { state := s, requests := 0, delays := [] } ∧
    (∀ target now outcomes2, s.targetDate = some target → s.appState = "active" →
      (tick s now outcomes2).state.timeLeft = calculateTimeLeft target now ∧
      (tick s now outcomes2).requests = 0 ∧
      (tick s now outcomes2).delays = [] ∧
      (calculateTimeLeft target now =
          { days := 0, hours := 0, minutes := 0, seconds := 0 } →
        (tick s now outcomes2).state.appState = "finished") ∧
      (calculateTimeLeft target now ≠
          { days := 0, hours := 0, minutes := 0, seconds := 0 } →
        (tick s now outcomes2).state.appState = "active" ∧
        (tick s now outcomes2).state.currentMotivation = s.currentMotivation ∧
        (tick s now outcomes2).state.currentStudyTip = s.currentStudyTip ∧
        (tick s now outcomes2).state.lastGeneratedDay = s.lastGeneratedDay)) := by
  refine ⟨generateLlmContent_inflight s h d t outcomes, ?_⟩
  intro target now o2 hT hA
  simp only [tick, hT, if_pos hA]
  by_cases hz : (calculateTimeLeft target now).days = 0 ∧
      (calculateTimeLeft target now).hours = 0 ∧
      (calculateTimeLeft target now).minutes = 0 ∧
      (calculateTimeLeft target now).seconds = 0
  · rw [if_pos hz]
    refine ⟨rfl, rfl, rfl, fun _ => rfl, fun hne => ?_⟩
    exfalso
    apply hne
    obtain ⟨h1, h2, h3, h4⟩ := hz
    cases hcal : calculateTimeLeft target now
    rw [hcal] at h1 h2 h3 h4
    simp only at h1 h2 h3 h4
    simp [h1, h2, h3, h4]
  · rw [if_neg hz]
    have hzr : calculateTimeLeft target now ≠
        { days := 0, hours := 0, minutes := 0, seconds := 0 } := by
      intro he
      apply hz
      rw [he]
      exact ⟨rfl, rfl, rfl, rfl⟩
    by_cases htr : some (calculateTimeLeft target now).days ≠ s.lastGeneratedDay ∨
        examDayInProgress (calculateTimeLeft target now) = true
    · rw [if_pos htr, generateLlmContent_inflight]
      · exact ⟨rfl, rfl, rfl, fun he => absurd he hzr, fun _ => ⟨hA, rfl, rfl, rfl⟩⟩
      · exact h
    · rw [if_neg htr]
      exact ⟨rfl, rfl, rfl, fun he => absurd he hzr, fun _ => ⟨hA, rfl, rfl, rfl⟩⟩

/-- C5 witness: the in-flight no-op and a still-working tick evaluated at
the concrete in-flight state (deadline two days ahead, tick at time
1000 ms). -/
theorem C5_single_flight_witness :
    generateLlmContent sampleInFlightState 1 false (fun _ => .err false) =
      { state := sampleInFlightState, requests := 0, delays := [] } ∧
    (tick sampleInFlightState 1000 (fun _ => .err false)).state.timeLeft =
      calculateTimeLeft 172800000 1000 ∧
    (tick sampleInFlightState 1000 (fun _ => .err false)).requests = 0 := by
  have h := C5_single_flight sampleInFlightState 1 false (fun _ => .err false) rfl
  have h2 := h.2 172800000 1000 (fun _ => .err false) rfl rfl
  exact ⟨h.1, h2.1, h2.2.1⟩

/-- C7: for every terminal outcome of a `generateLlmContent` call begun
with the in-flight guard clear — success, parse failure, retry
exhaustion, or any other error, all covered by quantifying over the
attempt-outcome oracle — the guard is false again when the call
completes, and from the resulting state a later call for a different
day-bucket (state still "active") reaches the request loop and issues at
least one request. -/
theorem C7_guard_cleared (s : ComponentState) (d : Nat) (t : Bool)
    (outcomes : Nat → AttemptOutcome) (h : s.isGenerating = false) :
    (generateLlmContent s d t outcomes).state.isGenerating = false ∧
    (∀ d2 outcomes2,
      (generateLlmContent s d t outcomes).state.appState = "active" →
      (generateLlmContent s d t outcomes).state.lastGeneratedDay ≠ some d2 →
      1 ≤ (generateLlmContent (generateLlmContent s d t outcomes).state
            d2 false outcomes2).requests) := by
  have hguard : (generateLlmContent s d t outcomes).state.isGenerating = false := by
    unfold generateLlmContent
    split_ifs <;> simp [h]
  refine ⟨hguard, ?_⟩
  intro d2 o2 hA2 hNew2
  rw [generateLlmContent_loop _ d2 o2 hA2 hguard hNew2]
  obtain ⟨k, _, _, hreq, _, _⟩ :=
    runRetryLoop_spec o2 d2
      { (generateLlmContent s d t outcomes).state with
        isGenerating := true
        isLoadingMessage := true
        currentMotivation := "Generating personalized motivation..."
        currentStudyTip := "Generating personalized study tip..." }
      6 0 (by omega) (by omega)
  rw [hreq]
  omega

/-- C7 witness: the guard is clear after a run that fails on the first
attempt with a non-429 error, from the concrete active state. -/
theorem C7_guard_cleared_witness :
    (generateLlmContent sampleActiveState 2 false
        (fun _ => .err false)).state.isGenerating = false :=
  (C7_guard_cleared sampleActiveState 2 false (fun _ => .err false) rfl).1

/-- A tick on the deadline's calendar day while time remains (days zero,
positive remainder), in the active state with the guard clear: the
remaining time is recomputed, the title becomes the less-than-a-day one,
and `generateLlmContent` applies the fixed exam-day pair, records
day-bucket 0 in the dedupe ref and clears the loading flag — all with no
network request, no delay and no deletion. -/
theorem tick_examDay (s : ComponentState) (target now : Int)
    (o : Nat → AttemptOutcome)
    (hT : s.targetDate = some target) (hA : s.appState = "active")
    (hG : s.isGenerating = false)
    (h1 : examDayInProgress (calculateTimeLeft target now) = true) :
    tick s now o =
      { state := { s with
          timeLeft := calculateTimeLeft target now
          countdownTitle := "Less than a day left! ⏰"
          currentMotivation := (getLlmPrompts 0 true).1
          currentStudyTip := (getLlmPrompts 0 true).2
          isLoadingMessage := false
          lastGeneratedDay := some 0 }
        requests := 0, delays := [], deleteScheduled := false } := by
  have hprog := of_decide_eq_true h1
  have hdays : (calculateTimeLeft target now).days = 0 := hprog.1
  have hz : ¬((calculateTimeLeft target now).days = 0 ∧
      (calculateTimeLeft target now).hours = 0 ∧
      (calculateTimeLeft target now).minutes = 0 ∧
      (calculateTimeLeft target now).seconds = 0) := by
    rcases hprog.2 with hp | hp | hp <;> omega
  simp only [tick, hT, if_pos hA, if_neg hz]
  rw [if_pos (Or.inr h1)]
  unfold generateLlmContent
  rw [if_neg (by simp [hA, hG])]
  rw [if_pos h1]
  simp only [hdays, h1]
  rfl

/-- C6: when the counting state enters the "deadline day, time still
remaining" sub-case (days 0 with a positive remainder), the entry tick
applies the fixed exam-day content exactly once — motivation, tip,
loading flag cleared, dedupe day-bucket set to 0, with no network
request — and any subsequent tick still inside that sub-case leaves the
content state (messages, loading flag, dedupe key) unchanged and again
issues no request. -/
theorem C6_exam_day_single_trigger (s : ComponentState) (target now1 now2 : Int)
    (o1 o2 : Nat → AttemptOutcome)
    (hT : s.targetDate = some target) (hA : s.appState = "active")
    (hG : s.isGenerating = false)
    (h1 : examDayInProgress (calculateTimeLeft target now1) = true)
    (h2 : examDayInProgress (calculateTimeLeft target now2) = true) :
    ((tick s now1 o1).state.currentMotivation = (getLlmPrompts 0 true).1 ∧
     (tick s now1 o1).state.currentStudyTip = (getLlmPrompts 0 true).2 ∧
     (tick s now1 o1).state.lastGeneratedDay = some 0 ∧
     (tick s now1 o1).state.isLoadingMessage = false ∧
     (tick s now1 o1).requests = 0 ∧
     (tick s now1 o1).delays = []) ∧
    ((tick (tick s now1 o1).state now2 o2).state.currentMotivation =
        (tick s now1 o1).state.currentMotivation ∧
     (tick (tick s now1 o1).state now2 o2).state.currentStudyTip =
        (tick s now1 o1).state.currentStudyTip ∧
     (tick (tick s now1 o1).state now2 o2).state.lastGeneratedDay =
        (tick s now1 o1).state.lastGeneratedDay ∧
     (tick (tick s now1 o1).state now2 o2).state.isLoadingMessage =
        (tick s now1 o1).state.isLoadingMessage ∧
     (tick (tick s now1 o1).state now2 o2).requests = 0 ∧
     (tick (tick s now1 o1).state now2 o2).delays = []) := by
  have hstep1 := tick_examDay s target now1 o1 hT hA hG h1
  have hstep2 := tick_examDay (tick s now1 o1).state target now2 o2
    (by rw [hstep1]; exact hT) (by rw [hstep1]; exact hA)
    (by rw [hstep1]; exact hG) h2
  rw [hstep2, hstep1]
  exact ⟨⟨rfl, rfl, rfl, rfl, rfl, rfl⟩, ⟨rfl, rfl, rfl, rfl, rfl, rfl⟩⟩

/-- `sampleActiveState` whose deadline falls 40 seconds after tick time
10 000 ms: the exam-day-in-progress sub-case. -/
def sampleExamDayState : ComponentState :=
  { sampleActiveState with targetDate := some 50000 }

/-- C6 witness: two consecutive exam-day ticks of the concrete state —
the first records day-bucket 0, the second leaves the content unchanged
and issues no request. -/
theorem C6_exam_day_single_trigger_witness :
    (tick sampleExamDayState 10000 (fun _ => .err false)).state.lastGeneratedDay =
      some 0 ∧
    (tick (tick sampleExamDayState 10000 (fun _ => .err false)).state 20000
        (fun _ => .err false)).state.currentMotivation =
      (tick sampleExamDayState 10000 (fun _ => .err false)).state.currentMotivation ∧
    (tick (tick sampleExamDayState 10000 (fun _ => .err false)).state 20000
        (fun _ => .err false)).requests = 0 := by
  have h := C6_exam_day_single_trigger sampleExamDayState 50000 10000 20000
    (fun _ => .err false) (fun _ => .err false) rfl rfl rfl (by decide) (by decide)
  obtain ⟨⟨hm1, ht1, hl1, hld1, hr1, hd1⟩, hm2, ht2, hl2, hld2, hr2, hd2⟩ := h
  exact ⟨hl1, hm2, hr2⟩


/-- The retry loop never touches the lifecycle state, the stored target
date or the inline input error. -/
theorem runRetryLoop_frame (o : Nat → AttemptOutcome) (d : Nat) :
    ∀ n attempt s, 6 - attempt ≤ n →
    ((runRetryLoop o d attempt s).state.appState = s.appState ∧
     (runRetryLoop o d attempt s).state.targetDate = s.targetDate ∧
     (runRetryLoop o d attempt s).state.inputError = s.inputError) := by
  intro n
  induction n with
  | zero =>
    intro attempt s h
    rw [runRetryLoop]
    rw [if_neg (by simp only [MAX_RETRIES]; omega)]
    exact ⟨rfl, rfl, rfl⟩
  | succ n ih =>
    intro attempt s h
    rw [runRetryLoop]
    by_cases h5 : attempt ≤ MAX_RETRIES
    · rw [if_pos h5]
      cases o attempt with
      | ok m t => exact ⟨rfl, rfl, rfl⟩
      | err b =>
        by_cases hb : b = true ∧ attempt < MAX_RETRIES
        · simp only [if_pos hb]
          exact ih (attempt + 1) s (by omega)
        · simp [if_neg hb]
    · rw [if_neg h5]
      exact ⟨rfl, rfl, rfl⟩

/-- `generateLlmContent` never touches the lifecycle state, the stored
target date or the inline input error. -/
theorem generateLlmContent_frame (s : ComponentState) (d : Nat) (t : Bool)
    (o : Nat → AttemptOutcome) :
    (generateLlmContent s d t o).state.appState = s.appState ∧
    (generateLlmContent s d t o).state.targetDate = s.targetDate ∧
    (generateLlmContent s d t o).state.inputError = s.inputError := by
  unfold generateLlmContent
  split_ifs
  · exact ⟨rfl, rfl, rfl⟩
  · exact ⟨rfl, rfl, rfl⟩
  · exact ⟨rfl, rfl, rfl⟩
  · exact (runRetryLoop_frame o d 6 0 _ (by omega))

/-- The empty input parses to `NaN`. -/
theorem jsParseInt_empty : jsParseInt "" = none := rfl

/-- Reduction of `handleStartCountdown` when the input does not parse. -/
theorem handleStartCountdown_nan (s : ComponentState) (mkTarget : Int → Int)
    (now : Int) (outcomes : Nat → AttemptOutcome)
    (hp : jsParseInt s.examDays = none) :
    handleStartCountdown s mkTarget now outcomes =
      { state := { s with inputError := "Please enter a valid number of days (e.g., 75)." }
        saved := none, requests := 0, delays := [] } := by
  unfold handleStartCountdown
  rw [hp]

/-- Reduction of `handleStartCountdown` once the input's parse result is
known. -/
theorem handleStartCountdown_parsed (s : ComponentState) (mkTarget : Int → Int)
    (now : Int) (outcomes : Nat → AttemptOutcome) (d : Int)
    (hp : jsParseInt s.examDays = some d) :
    handleStartCountdown s mkTarget now outcomes =
      (if s.examDays = "" ∨ d ≤ 0 then
        { state := { s with inputError := "Please enter a valid number of days (e.g., 75)." }
          saved := none, requests := 0, delays := [] }
      else if d > 365 then
        { state := { s with inputError := "Please enter a number less than 365 days to ensure relevance." }
          saved := none, requests := 0, delays := [] }
      else if s.user = none then
        { state := { s with inputError := "Authentication not ready. Please wait a moment and try again." }
          saved := none, requests := 0, delays := [] }
      else
        let target := mkTarget d
        let initialTimeLeft := calculateTimeLeft target now
        let s1 := { s with
          inputError := ""
          targetDate := some target
          appState := "active"
          timeLeft := initialTimeLeft
          countdownTitle :=
            if initialTimeLeft.days > 0 then s!"{initialTimeLeft.days} days to go! 💪"
            else "Less than a day left! ⏰"
          lastGeneratedDay := none }
        let g := generateLlmContent s1 initialTimeLeft.days
          (examDayInProgress initialTimeLeft) outcomes
        { state := g.state, saved := some target
          requests := g.requests, delays := g.delays }) := by
  unfold handleStartCountdown
  rw [hp]

/-- C8: with the identity available, `handleStartCountdown` accepts the
submitted text exactly when it parses to an integer in `[1, 365]`: any
parse failure or out-of-range value sets only the inline input-error
message (non-empty) and changes nothing else — no save, no request, no
delay, every other field untouched; a parse to `d` with `1 ≤ d ≤ 365`
persists the computed deadline, enters the "active" lifecycle state and
clears the inline error. -/
theorem C8_validation (s : ComponentState) (uid : String) (mkTarget : Int → Int)
    (now : Int) (outcomes : Nat → AttemptOutcome) (hU : s.user = some uid) :
    ((jsParseInt s.examDays = none ∨
        (∀ d, jsParseInt s.examDays = some d → d ≤ 0 ∨ d > 365)) →
      ∃ msg, msg ≠ "" ∧
        handleStartCountdown s mkTarget now outcomes =
          { state := { s with inputError := msg }
            saved := none, requests := 0, delays := [] }) ∧
    (∀ d, jsParseInt s.examDays = some d → 1 ≤ d → d ≤ 365 →
      (handleStartCountdown s mkTarget now outcomes).saved = some (mkTarget d) ∧
      (handleStartCountdown s mkTarget now outcomes).state.appState = "active" ∧
      (handleStartCountdown s mkTarget now outcomes).state.targetDate =
        some (mkTarget d) ∧
      (handleStartCountdown s mkTarget now outcomes).state.inputError = "") := by
  constructor
  · intro hrej
    cases hp : jsParseInt s.examDays with
    | none =>
      exact ⟨"Please enter a valid number of days (e.g., 75).", by decide,
        handleStartCountdown_nan s mkTarget now outcomes hp⟩
    | some d =>
      have hne : s.examDays ≠ "" := by
        intro he
        rw [he, jsParseInt_empty] at hp
        exact absurd hp (by simp)
      have hrange : d ≤ 0 ∨ d > 365 := by
        rcases hrej with hnone | hall
        · rw [hp] at hnone
          exact absurd hnone (by simp)
        · exact hall d hp
      rw [handleStartCountdown_parsed s mkTarget now outcomes d hp]
      rcases hrange with hle | hgt
      · exact ⟨"Please enter a valid number of days (e.g., 75).", by decide,
          by rw [if_pos (Or.inr hle)]⟩
      · refine ⟨"Please enter a number less than 365 days to ensure relevance.",
          by decide, ?_⟩
        rw [if_neg (by push_neg; exact ⟨hne, by omega⟩), if_pos hgt]
  · intro d hp h1 h365
    have hne : s.examDays ≠ "" := by
      intro he
      rw [he, jsParseInt_empty] at hp
      exact absurd hp (by simp)
    rw [handleStartCountdown_parsed s mkTarget now outcomes d hp]
    rw [if_neg (by push_neg; exact ⟨hne, by omega⟩)]
    rw [if_neg (by omega)]
    rw [if_neg (by rw [hU]; simp)]
    refine ⟨rfl, ?_, ?_, ?_⟩
    · exact (generateLlmContent_frame _ _ _ _).1
    · exact (generateLlmContent_frame _ _ _ _).2.1
    · exact (generateLlmContent_frame _ _ _ _).2.2

/-- An awaiting-input state with the identity available and "10" typed in
the day field. -/
def sampleInitialState : ComponentState :=
  { sampleActiveState with appState := "initial", targetDate := none, examDays := "10" }

/-- C8 witness: submitting "10" from the concrete awaiting-input state
persists the computed deadline (10 · 86 400 000 ms with the sample
calendar oracle), enters "active" and clears the inline error. -/
theorem C8_validation_witness :
    (handleStartCountdown sampleInitialState (fun d => d * 86400000) 0
        (fun _ => .err false)).saved = some 864000000 ∧
    (handleStartCountdown sampleInitialState (fun d => d * 86400000) 0
        (fun _ => .err false)).state.appState = "active" ∧
    (handleStartCountdown sampleInitialState (fun d => d * 86400000) 0
        (fun _ => .err false)).state.inputError = "" := by
  have h := (C8_validation sampleInitialState "user-1" (fun d => d * 86400000) 0
    (fun _ => .err false) rfl).2 10 (by decide) (by decide) (by decide)
  exact ⟨h.1, h.2.1, h.2.2.2⟩
